import Mathlib

/-!
Shallow embedding of `backend/app/main.py` (prompt2story).

Text is modelled as `List Char` (Python `str` / decoded bytes).  Machine
integers do not overflow in any relevant code path, so `Nat` is used
directly.  Fallible Python code is modelled with `Option` / `Except`.
The exceptions that the handlers raise and catch are modelled by the
inductive `PyErr`; the `except (json.JSONDecodeError, ValueError)` blocks
are modelled by the predicate `caughtByJsonValue` (pydantic's
`ValidationError` is a subclass of `ValueError` in both pydantic major
versions, so it is caught by those blocks as well).

JSON documents are modelled by the inductive `Json` together with the
executable parser `json_loads`, a recursive-descent parser faithful to
Python's `json.loads` on the fragment used by this program: objects,
arrays, strings (with the single-character escapes), integer numerals,
`true` / `false` / `null`, and ASCII whitespace.  (Floating point
numerals and `\u` escapes are outside the modelled fragment.)
-/

namespace P2S

abbrev Chars := List Char

/-- Whitespace for Python `str.strip()` (ASCII part). -/
def isPyWs (c : Char) : Bool :=
  c == ' ' || c == '\t' || c == '\n' || c == '\x0d' || c == '\x0b' || c == '\x0c'

/-- Python `s.strip()`. -/
def pyStrip (s : Chars) : Chars :=
  ((s.dropWhile isPyWs).reverse.dropWhile isPyWs).reverse

/-- Python `s.find(c)`: index of the first occurrence, if any. -/
def pyFindChar (c : Char) : Chars → Option Nat
  | [] => none
  | a :: rest => if a = c then some 0 else (pyFindChar c rest).map (· + 1)

/-- Python `s.rfind(c)`: index of the last occurrence, if any. -/
def pyRFindChar (c : Char) (s : Chars) : Option Nat :=
  (pyFindChar c s.reverse).map (fun i => s.length - 1 - i)

/-- Python `s[a:b]` for `0 ≤ a`, `0 ≤ b` (as used in the source). -/
def pySlice (s : Chars) (a b : Nat) : Chars :=
  (s.take b).drop a

/-- JSON whitespace skipping, as in Python's `json` scanner. -/
def skipWs : Chars → Chars
  | [] => []
  | c :: rest =>
    if c == ' ' || c == '\t' || c == '\n' || c == '\x0d' then skipWs rest
    else c :: rest

/-- JSON values.  Numbers are modelled on the integer fragment. -/
inductive Json where
  | null : Json
  | bool (b : Bool) : Json
  | num (n : Int) : Json
  | str (s : Chars) : Json
  | arr (elems : List Json) : Json
  | obj (members : List (Chars × Json)) : Json

/-- Single-character string escapes of JSON. -/
def escChar (c : Char) : Option Char :=
  if c = '"' then some '"'
  else if c = '\\' then some '\\'
  else if c = '/' then some '/'
  else if c = 'b' then some '\x08'
  else if c = 'f' then some '\x0c'
  else if c = 'n' then some '\n'
  else if c = 'r' then some '\x0d'
  else if c = 't' then some '\t'
  else none

/-- Body of a JSON string after the opening quote; returns the decoded
characters and the input after the closing quote. -/
def parseStringBody : Chars → Option (Chars × Chars)
  | [] => none
  | c :: rest =>
    if c = '"' then some ([], rest)
    else if c = '\\' then
      match rest with
      | [] => none
      | e :: rest2 =>
        match escChar e with
        | some ec => (parseStringBody rest2).map (fun p => (ec :: p.1, p.2))
        | none => none
    else (parseStringBody rest).map (fun p => (c :: p.1, p.2))

/-- Maximal run of decimal digits, accumulating their value. -/
def parseDigitsAux : Chars → Nat → Nat × Chars
  | [], acc => (acc, [])
  | c :: rest, acc =>
    if c.isDigit then parseDigitsAux rest (acc * 10 + (c.toNat - 48))
    else (acc, c :: rest)

/-- An integer JSON numeral: optional minus sign, then at least one digit. -/
def parseIntNum : Chars → Option (Int × Chars)
  | [] => none
  | c :: rest =>
    if c = '-' then
      match rest with
      | [] => none
      | d :: _ =>
        if d.isDigit then
          let p := parseDigitsAux rest 0
          some (-(p.1 : Int), p.2)
        else none
    else if c.isDigit then
      let p := parseDigitsAux (c :: rest) 0
      some ((p.1 : Int), p.2)
    else none

mutual

/-- One JSON value (fuelled recursive descent). -/
def parseVal : Nat → Chars → Option (Json × Chars)
  | 0, _ => none
  | fuel + 1, s =>
    match skipWs s with
    | [] => none
    | c :: rest =>
      if c = '\x7b' then parseObjBody fuel rest
      else if c = '[' then parseArrBody fuel rest
      else if c = '"' then (parseStringBody rest).map (fun p => (.str p.1, p.2))
      else if c = 't' then
        match rest with
        | 'r' :: 'u' :: 'e' :: r => some (.bool true, r)
        | _ => none
      else if c = 'f' then
        match rest with
        | 'a' :: 'l' :: 's' :: 'e' :: r => some (.bool false, r)
        | _ => none
      else if c = 'n' then
        match rest with
        | 'u' :: 'l' :: 'l' :: r => some (.null, r)
        | _ => none
      else (parseIntNum (c :: rest)).map (fun p => (.num p.1, p.2))

/-- Object body after the opening brace. -/
def parseObjBody : Nat → Chars → Option (Json × Chars)
  | 0, _ => none
  | fuel + 1, s =>
    match skipWs s with
    | '\x7d' :: r => some (.obj [], r)
    | other => (parseMembers fuel other).map (fun p => (.obj p.1, p.2))

/-- One or more `"key": value` members, up to the closing brace. -/
def parseMembers : Nat → Chars → Option (List (Chars × Json) × Chars)
  | 0, _ => none
  | fuel + 1, s =>
    match skipWs s with
    | '"' :: rest =>
      match parseStringBody rest with
      | none => none
      | some (key, r1) =>
        match skipWs r1 with
        | ':' :: r2 =>
          match parseVal fuel r2 with
          | none => none
          | some (v, r3) =>
            match skipWs r3 with
            | ',' :: r4 =>
              (parseMembers fuel r4).map (fun p => ((key, v) :: p.1, p.2))
            | '\x7d' :: r4 => some ([(key, v)], r4)
            | _ => none
        | _ => none
    | _ => none

/-- Array body after the opening bracket. -/
def parseArrBody : Nat → Chars → Option (Json × Chars)
  | 0, _ => none
  | fuel + 1, s =>
    match skipWs s with
    | ']' :: r => some (.arr [], r)
    | other => (parseElems fuel other).map (fun p => (.arr p.1, p.2))

/-- One or more array elements, up to the closing bracket. -/
def parseElems : Nat → Chars → Option (List Json × Chars)
  | 0, _ => none
  | fuel + 1, s =>
    match parseVal fuel s with
    | none => none
    | some (v, r1) =>
      match skipWs r1 with
      | ',' :: r2 => (parseElems fuel r2).map (fun p => (v :: p.1, p.2))
      | ']' :: r2 => some ([v], r2)
      | _ => none

end

/-- Python `json.loads`: parse the whole text as one JSON document. -/
def json_loads (s : Chars) : Option Json :=
  match parseVal (s.length + 1) s with
  | some (v, rest) => if skipWs rest = [] then some v else none
  | none => none

/-! ## Data model (the pydantic models of `main.py`) -/

structure Metadata where
  priority : Chars
  type : Chars
  component : Chars
  effort : Chars
  persona : Chars
  persona_other : Option Chars := none
deriving DecidableEq

structure UserStory where
  title : Chars
  story : Chars
  acceptance_criteria : List Chars
  metadata : Option Metadata := none
deriving DecidableEq

structure GenerationResponse where
  user_stories : List UserStory
  edge_cases : List Chars
deriving DecidableEq

structure TextInput where
  text : Chars
  include_metadata : Bool := false
  infer_edge_cases : Bool := true
  include_advanced_criteria : Bool := true
  expand_all_components : Bool := true
deriving DecidableEq

structure RegenerateRequest where
  original_input : Chars
  current_story : UserStory
  include_metadata : Bool := false
deriving DecidableEq

/-- The four boolean generation options, shared by the JSON body of
`generate-user-stories` and the multipart form of `analyze-design`. -/
structure GenerationOptions where
  include_metadata : Bool
  infer_edge_cases : Bool
  include_advanced_criteria : Bool
  expand_all_components : Bool
deriving DecidableEq

/-- The options carried by a `TextInput`. -/
def TextInput.options (i : TextInput) : GenerationOptions :=
  ⟨i.include_metadata, i.infer_edge_cases, i.include_advanced_criteria,
   i.expand_all_components⟩

/-- A `TextInput` parsed from a JSON body that provides only `text`;
pydantic fills every omitted field with its declared default. -/
def TextInput.mkDefault (text : Chars) : TextInput := { text := text }

/-- The declared defaults of the four `Form(...)` parameters of
`analyze_design` (`Form(False)`, `Form(True)`, `Form(True)`, `Form(True)`). -/
def analyzeDesignFormDefaults : GenerationOptions := ⟨false, true, true, true⟩

/-! ## Exceptions

The Python exceptions this module raises and catches.  pydantic's
`ValidationError` is a subclass of `ValueError` (in pydantic v1 and v2),
which the predicate `caughtByJsonValue` reflects.  The message stored in
`jsonDecode` and `validationError` stands for the library-rendered
message (its exact text is never asserted by a theorem; only statuses
and the handler-chosen strings are). -/

inductive PyErr where
  | jsonDecode (msg : Chars)
  | valueError (msg : Chars)
  | validationError (msg : Chars)
  | httpException (status : Nat) (detail : Chars)
  | openAIError (msg : Chars)
deriving DecidableEq

/-- Python `str(e)`.  For a starlette/fastapi `HTTPException` this is
`f"{status_code}: {detail}"`. -/
def pyErrStr : PyErr → Chars
  | .jsonDecode msg => msg
  | .valueError msg => msg
  | .validationError msg => msg
  | .httpException status detail => Nat.toDigits 10 status ++ ": ".data ++ detail
  | .openAIError msg => msg

/-- Which exceptions an `except (json.JSONDecodeError, ValueError)` block
catches (pydantic `ValidationError` included, being a `ValueError`). -/
def caughtByJsonValue : PyErr → Bool
  | .jsonDecode _ => true
  | .valueError _ => true
  | .validationError _ => true
  | _ => false

/-- The trailing `except openai.OpenAIError` / `except Exception` pair
that every handler ends with: both re-raise as an HTTP 500, with
different detail prefixes. -/
def wrapErr (e : PyErr) : Nat × Chars :=
  match e with
  | .openAIError m => (500, "OpenAI API error: ".data ++ m)
  | e => (500, "Internal server error: ".data ++ pyErrStr e)

/-! ## pydantic model construction (`Model(**result)`)

Required fields must be present with the declared type; `Optional`
fields accept `null` or absence; extra keys are ignored (pydantic's
default config).  Python dicts produced by `json.loads` keep the last
value of a duplicated key, hence the reversed lookup. -/

def objGet (members : List (Chars × Json)) (k : Chars) : Option Json :=
  (members.reverse.find? (fun p => p.1 == k)).map (·.2)

/-- Python `key in result` for a dict produced by `json.loads`. -/
def jsonHasKey (j : Json) (k : Chars) : Bool :=
  match j with
  | .obj ms => ms.any (fun p => p.1 == k)
  | _ => false

def asStr : Json → Option Chars
  | .str s => some s
  | _ => none

def asStrList : Json → Option (List Chars)
  | .arr xs => xs.mapM asStr
  | _ => none

def buildMetadata (j : Json) : Option Metadata :=
  match j with
  | .obj ms => do
    let priority ← (objGet ms "priority".data).bind asStr
    let ty ← (objGet ms "type".data).bind asStr
    let component ← (objGet ms "component".data).bind asStr
    let effort ← (objGet ms "effort".data).bind asStr
    let persona ← (objGet ms "persona".data).bind asStr
    let persona_other ←
      match objGet ms "persona_other".data with
      | none => some none
      | some .null => some none
      | some v => (asStr v).map some
    some ⟨priority, ty, component, effort, persona, persona_other⟩
  | _ => none

def buildUserStory (j : Json) : Option UserStory :=
  match j with
  | .obj ms => do
    let title ← (objGet ms "title".data).bind asStr
    let story ← (objGet ms "story".data).bind asStr
    let crit ← (objGet ms "acceptance_criteria".data).bind asStrList
    let metadata ←
      match objGet ms "metadata".data with
      | none => some none
      | some .null => some none
      | some v => (buildMetadata v).map some
    some ⟨title, story, crit, metadata⟩
  | _ => none

def buildGenerationResponse (j : Json) : Option GenerationResponse :=
  match j with
  | .obj ms => do
    let stories ← (objGet ms "user_stories".data).bind fun v =>
      match v with
      | .arr xs => xs.mapM buildUserStory
      | _ => none
    let edges ← (objGet ms "edge_cases".data).bind asStrList
    some ⟨stories, edges⟩
  | _ => none

/-! ## Extraction and the degraded placeholder -/

/-- Lines 154-157 / 242-245 / 404-407: the substring from the first
opening brace to the last closing brace, when both exist
(`start_idx != -1 and end_idx != 0`). -/
def extractCandidate (content : Chars) : Option Chars :=
  match pyFindChar '\x7b' content, pyRFindChar '\x7d' content with
  | some i, some j => some (pySlice content i (j + 1))
  | _, _ => none

/-- The whole inner `try` of the generation parse step: brace-sandwich
slice, then `json.loads`; `none` covers both the `ValueError` of the
no-brace branch and a `JSONDecodeError` of the parse. -/
def extractJson (content : Chars) : Option Json :=
  (extractCandidate content).bind json_loads

/-- `content[:200] + "..." if len(content) > 200 else content`. -/
def truncStory (content : Chars) : Chars :=
  if content.length > 200 then content.take 200 ++ "...".data else content

def reviewCriteria : Chars :=
  "Please review the generated content for specific criteria".data

def reviewEdgeCases : Chars :=
  "Please review the generated content for edge cases".data

/-- The degraded placeholder dict built in the `except` recovery branch
(`title` is "Generated User Story" in `generate_user_stories` and
"Document Analysis Generated" in `analyze_design`). -/
def degradedResult (title content : Chars) : Json :=
  .obj [("user_stories".data, .arr [.obj [
          ("title".data, .str title),
          ("story".data, .str (truncStory content)),
          ("acceptance_criteria".data, .arr [.str reviewCriteria])]]),
        ("edge_cases".data, .arr [.str reviewEdgeCases])]

/-! ## Prompt composition -/

/-- `load_prompt`: the external template file
`prompts/user_story_prompt.md` is not part of the repository, so the
function returns its built-in `FileNotFoundError` fallback string. -/
def load_prompt : Chars :=
  ("You are an expert product manager and business analyst. Convert the provided unstructured text into well-structured user stories, acceptance criteria, and edge cases.\n\nReturn a JSON object with this structure:\n\x7b\n  \"user_stories\": [\n    \x7b\n      \"title\": \"Brief title\",\n      \"story\": \"As a [user], I want [goal] so that [benefit]\",\n      \"acceptance_criteria\": [\"Given [context], when [action], then [outcome]\"]\n    \x7d\n  ],\n  \"edge_cases\": [\"Description of edge case\"]\n\x7d").data

def metadataClause : Chars :=
  "\n\nIMPORTANT: Include detailed metadata in your response with priority (Low/Medium/High), type (Feature/Bug/Chore/Enhancement), component, effort, and persona (End User/Admin/Support Agent/Engineer/Designer/QA/Customer/Other) fields for each user story.".data

def edgeCasesClause : Chars :=
  "\n\nEDGE CASES: Infer and include comprehensive edge cases, boundary conditions, and error scenarios for each user story.".data

def advancedCriteriaClause : Chars :=
  "\n\nADVANCED CRITERIA: Generate 5-7 detailed acceptance criteria per story covering normal flow, error handling, edge cases, different states, accessibility, and performance considerations.".data

def comprehensiveClause : Chars :=
  "\n\nCOMPREHENSIVE ANALYSIS: Scan and analyze ALL mentioned components, features, and requirements. Do not limit analysis arbitrarily - be thorough and complete.".data

/-- The labeled final section `f"...\n\nUnstructured text to analyze:\n{input_data.text}"`. -/
def unstructuredLabel : Chars := "\n\nUnstructured text to analyze:\n".data

/-- Lines 125-139: the `prompt_template` accumulation and the final
f-string, mirrored as a let-chain. -/
def generatePrompt (input : TextInput) : Chars :=
  let t0 := load_prompt
  let t1 := if input.include_metadata then t0 ++ metadataClause else t0
  let t2 := if input.infer_edge_cases then t1 ++ edgeCasesClause else t1
  let t3 := if input.include_advanced_criteria then t2 ++ advancedCriteriaClause else t2
  let t4 := if input.expand_all_components then t3 ++ comprehensiveClause else t3
  t4 ++ unstructuredLabel ++ input.text

/-! ## The completion collaborator -/

/-- One request to the external chat-completion service.  The source
passes `temperature=0.7` (modelled in tenths) and never passes a
`response_format` constraint, which `structuredMode` records. -/
structure CompletionRequest where
  model : Chars
  structuredMode : Bool
  messages : List (Chars × Chars)
  temperatureTenths : Nat
  maxTokens : Nat
deriving DecidableEq

def generateSystemMsg : Chars :=
  "You are a senior Product Owner and business analyst. Be thorough and comprehensive in your analysis.".data

/-- The single `openai_client.chat.completions.create(...)` call of
`generate_user_stories` (lines 141-149). -/
def generateRequest (input : TextInput) : CompletionRequest :=
  { model := "gpt-4o".data
    structuredMode := false
    messages := [("system".data, generateSystemMsg),
                 ("user".data, generatePrompt input)]
    temperatureTenths := 7
    maxTokens := 4000 }

/-! ## Handler: POST /generate-user-stories -/

/-- Outcome of one request: the HTTP-level result plus the list of
completion requests issued to the external collaborator. -/
structure GenOutcome where
  response : Except (Nat × Chars) GenerationResponse
  attempts : List CompletionRequest

/-- `generate_user_stories` (lines 119-178).  `svcResponse` is what the
external completion call returns (or raises) if it is made.  Note that
the empty-text `HTTPException(400)` is raised inside the `try`, so the
trailing `except Exception` rewraps it into a 500. -/
def generate_user_stories (input : TextInput) (svcResponse : Except PyErr Chars) :
    GenOutcome :=
  if pyStrip input.text = [] then
    { response := .error (wrapErr (.httpException 400 "Input text cannot be empty".data))
      attempts := [] }
  else
    match svcResponse with
    | .error e => { response := .error (wrapErr e), attempts := [generateRequest input] }
    | .ok content =>
      let result : Json :=
        match extractJson content with
        | some r => r
        | none => degradedResult "Generated User Story".data content
      -- `GenerationResponse(**result)` happens after the inner `try`,
      -- so a construction failure reaches `except Exception`.
      match buildGenerationResponse result with
      | some resp => { response := .ok resp, attempts := [generateRequest input] }
      | none =>
        { response := .error (wrapErr (.validationError "validation error for GenerationResponse".data))
          attempts := [generateRequest input] }

/-! ## Handler: POST /regenerate-story -/

def regenPlaceholderCriteria : List Chars :=
  ["Given the system is operational, when the user performs the action, then the expected outcome occurs".data,
   "Given an error condition, when the user attempts the action, then appropriate error handling is provided".data,
   "Given edge case scenarios, when the user interacts with the feature, then the system behaves predictably".data]

/-- The placeholder `UserStory` of the regeneration recovery branch
(lines 255-264): "Improved: " title prefix, story and metadata carried
over, three fixed acceptance criteria. -/
def regenPlaceholder (request : RegenerateRequest) : UserStory :=
  { title := "Improved: ".data ++ request.current_story.title
    story := request.current_story.story
    acceptance_criteria := regenPlaceholderCriteria
    metadata := request.current_story.metadata }

def requiredStoryKeys : List Chars :=
  ["title".data, "story".data, "acceptance_criteria".data]

/-- The inner `try` of `regenerate_story` (lines 241-253): brace slice,
`json.loads`, required-keys check, then `UserStory(**result)` — the
construction happens inside this block, so its `ValidationError` is one
of the errors the recovery branch sees. -/
def regenInner (content : Chars) : Except PyErr UserStory :=
  match extractCandidate content with
  | none => .error (.valueError "No JSON found in response".data)
  | some cand =>
    match json_loads cand with
    | none => .error (.jsonDecode "Expecting value".data)
    | some result =>
      if requiredStoryKeys.all (fun k => jsonHasKey result k) then
        match buildUserStory result with
        | some s => .ok s
        | none => .error (.validationError "validation error for UserStory".data)
      else .error (.valueError "Missing required fields in regenerated story".data)

/-- `regenerate_story` (lines 180-269). -/
def regenerate_story (request : RegenerateRequest) (svcResponse : Except PyErr Chars) :
    Except (Nat × Chars) UserStory :=
  if pyStrip request.original_input = [] then
    .error (wrapErr (.httpException 400 "Original input cannot be empty".data))
  else
    match svcResponse with
    | .error e => .error (wrapErr e)
    | .ok content =>
      match regenInner content with
      | .ok s => .ok s
      | .error e =>
        if caughtByJsonValue e then .ok (regenPlaceholder request)
        else .error (wrapErr e)

/-! ## Handler: POST /analyze-design -/

def tenMB : Nat := 10 * 1024 * 1024

def pyStartsWith (p s : Chars) : Bool := p.isPrefixOf s

/-- `load_design_prompt`: the external template file
`prompts/design_analysis_prompt.md` is not part of the repository, so
the function returns its built-in fallback string. -/
def load_design_prompt : Chars :=
  "Analyze this design mockup and generate user stories based on the UI elements you can identify. Focus on interactive elements like buttons, forms, navigation, and user workflows.".data

def imageMetadataClause : Chars :=
  "\n\nIMPORTANT: Include detailed metadata in your response with priority (Low/Medium/High), type (Feature/Enhancement/Accessibility), component, effort, and persona (End User/Admin/Support Agent/Engineer/Designer/QA/Customer/Other) fields for each user story.".data

def imageEdgeCasesClause : Chars :=
  "\n\nEDGE CASES: Infer and include comprehensive edge cases, boundary conditions, and error scenarios for each UI element and interaction.".data

def imageAdvancedClause : Chars :=
  "\n\nADVANCED CRITERIA: Generate 5-7 detailed acceptance criteria per story covering normal flow, error handling, edge cases, responsive behavior, accessibility, and interaction states.".data

def imageComprehensiveClause : Chars :=
  "\n\nCOMPREHENSIVE UI ANALYSIS: Systematically scan and analyze ALL visible UI components, interactive elements, and interface areas. Do not limit analysis arbitrarily - be thorough and complete.".data

def pdfLabel : Chars := "\n\nExtracted text from PDF document to analyze:\n".data

/-- Lines 337-351: the PDF-branch prompt (same clauses as the text
handler, different final label). -/
def pdfPrompt (o : GenerationOptions) (pdf_text : Chars) : Chars :=
  let t0 := load_prompt
  let t1 := if o.include_metadata then t0 ++ metadataClause else t0
  let t2 := if o.infer_edge_cases then t1 ++ edgeCasesClause else t1
  let t3 := if o.include_advanced_criteria then t2 ++ advancedCriteriaClause else t2
  let t4 := if o.expand_all_components then t3 ++ comprehensiveClause else t3
  t4 ++ pdfLabel ++ pdf_text

/-- Lines 366-378: the image-branch prompt. -/
def imagePrompt (o : GenerationOptions) : Chars :=
  let t0 := load_design_prompt
  let t1 := if o.include_metadata then t0 ++ imageMetadataClause else t0
  let t2 := if o.infer_edge_cases then t1 ++ imageEdgeCasesClause else t1
  let t3 := if o.include_advanced_criteria then t2 ++ imageAdvancedClause else t2
  if o.expand_all_components then t3 ++ imageComprehensiveClause else t3

def imageSystemMsg : Chars :=
  "You are a senior Product Owner and UX analyst. Be thorough and comprehensive in your design analysis.".data

/-- The completion call of the PDF branch (lines 353-361). -/
def pdfRequest (o : GenerationOptions) (pdf_text : Chars) : CompletionRequest :=
  { model := "gpt-4o".data
    structuredMode := false
    messages := [("system".data, generateSystemMsg), ("user".data, pdfPrompt o pdf_text)]
    temperatureTenths := 7
    maxTokens := 4000 }

/-- The completion call of the image branch (lines 380-399).  Its user
message is multimodal (prompt text plus the inline base64 image part);
only the text part is recorded here, which no claim examines. -/
def imageRequest (o : GenerationOptions) : CompletionRequest :=
  { model := "gpt-4o".data
    structuredMode := false
    messages := [("system".data, imageSystemMsg), ("user".data, imagePrompt o)]
    temperatureTenths := 7
    maxTokens := 4000 }

structure AnalyzeOutcome where
  response : Except (Nat × Chars) GenerationResponse
  attempts : List CompletionRequest

/-- The shared tail of `analyze_design` (lines 401-423): completion
call, brace-sandwich parse with degraded recovery, then
`GenerationResponse(**result)` outside the recovery block. -/
def analyzeTail (req : CompletionRequest) (svcResponse : Except PyErr Chars) :
    AnalyzeOutcome :=
  match svcResponse with
  | .error e => { response := .error (wrapErr e), attempts := [req] }
  | .ok content =>
    let result : Json :=
      match extractJson content with
      | some r => r
      | none => degradedResult "Document Analysis Generated".data content
    match buildGenerationResponse result with
    | some resp => { response := .ok resp, attempts := [req] }
    | none =>
      { response := .error (wrapErr (.validationError "validation error for GenerationResponse".data))
        attempts := [req] }

/-- Python falsiness of `file.content_type` (absent or empty). -/
def ctypeFalsy : Option Chars → Bool
  | none => true
  | some s => s.isEmpty

/-- `analyze_design` (lines 314-428).  `pdfExtract` is the opaque
`extract_pdf_text` collaborator, `svcResponse` the completion
collaborator; `externalCalls` counts completion calls.  The guard
mirrors `file.content_type.startswith(('image/', 'application/pdf'))`
(a tuple argument: either prefix passes).  Both 400 guards are raised
inside the `try`, so the trailing `except Exception` rewraps them into
500s. -/
def analyze_design (content_type : Option Chars) (fileContent : Chars)
    (include_metadata infer_edge_cases include_advanced_criteria expand_all_components : Bool)
    (pdfExtract : Except PyErr Chars) (svcResponse : Except PyErr Chars) :
    AnalyzeOutcome :=
  let opts : GenerationOptions :=
    ⟨include_metadata, infer_edge_cases, include_advanced_criteria, expand_all_components⟩
  let ct := content_type.getD []
  if ctypeFalsy content_type
      || !(pyStartsWith "image/".data ct || pyStartsWith "application/pdf".data ct) then
    { response := .error (wrapErr (.httpException 400
        "Only image files (PNG, JPG) and PDF files are supported".data))
      attempts := [] }
  else if fileContent.length > tenMB then
    { response := .error (wrapErr (.httpException 400 "File size must be less than 10MB".data))
      attempts := [] }
  else if ct = "application/pdf".data then
    match pdfExtract with
    | .error e => { response := .error (wrapErr e), attempts := [] }
    | .ok pdf_text =>
      if pyStrip pdf_text = [] then
        { response := .error (wrapErr (.httpException 400
            "PDF file appears to be empty or contains no extractable text".data))
          attempts := [] }
      else analyzeTail (pdfRequest opts pdf_text) svcResponse
  else analyzeTail (imageRequest opts) svcResponse

/-! ## The Completion Gateway of the specification -/

/-- Modelled from the spec: the Completion Gateway of section 4.2, which
is absent from the source.  It first attempts a structured-mode request
with `primaryModel`; if that raises any error it retries exactly once,
unconstrained, with `fallbackModel` and identical messages, temperature
and maxTokens, returning the first successful raw text.  Returns the
final result together with the requests attempted. -/
def specGateway (primaryModel fallbackModel : Chars) (messages : List (Chars × Chars))
    (temperatureTenths maxTokens : Nat) (svc : CompletionRequest → Except PyErr Chars) :
    Except PyErr Chars × List CompletionRequest :=
  let req1 : CompletionRequest :=
    ⟨primaryModel, true, messages, temperatureTenths, maxTokens⟩
  match svc req1 with
  | .ok t => (.ok t, [req1])
  | .error _ =>
    let req2 : CompletionRequest :=
      ⟨fallbackModel, false, messages, temperatureTenths, maxTokens⟩
    (svc req2, [req1, req2])

/-! ## Observables and sample values used by witnesses -/

/-- The HTTP status of a handler result, when it is an error response. -/
def statusOf {α : Type} : Except (Nat × Chars) α → Option Nat
  | .error p => some p.1
  | .ok _ => none

/-- A benign request body used by concrete witnesses. -/
def sampleInput : TextInput := TextInput.mkDefault "Build a login page".data

/-- A benign regeneration request used by concrete witnesses. -/
def sampleRegenRequest : RegenerateRequest :=
  { original_input := "Users report the form hangs".data
    current_story :=
      { title := "Form submission".data
        story := "As a user, I want the form to submit so that my data is saved".data
        acceptance_criteria := ["Given a filled form, when submitted, then it saves".data]
        metadata := some ⟨"High".data, "Bug".data, "form".data, "1 day".data, "QA".data, none⟩ } }

/-! ## Helper lemmas -/

/-- The degraded placeholder dict always passes
`GenerationResponse(**result)`. -/
theorem degraded_builds (title content : Chars) :
    buildGenerationResponse (degradedResult title content) =
      some { user_stories := [{ title := title, story := truncStory content,
                                acceptance_criteria := [reviewCriteria], metadata := none }],
             edge_cases := [reviewEdgeCases] } := rfl

/-- When extraction fails, the generate handler answers 200 with the
degraded placeholder (and one completion call was made). -/
theorem generate_extract_failed (input : TextInput) (t : Chars)
    (h : pyStrip input.text ≠ []) (hex : extractJson t = none) :
    generate_user_stories input (.ok t) =
      { response := .ok { user_stories := [{ title := "Generated User Story".data,
                                             story := truncStory t,
                                             acceptance_criteria := [reviewCriteria],
                                             metadata := none }],
                          edge_cases := [reviewEdgeCases] }
        attempts := [generateRequest input] } := by
  unfold generate_user_stories
  rw [if_neg h]
  simp only [hex, degraded_builds]

/-! ## Claim theorems -/

/-- C10: requests that omit the option toggles default to
`include_metadata = false` and `infer_edge_cases =
include_advanced_criteria = expand_all_components = true`, identically
for the JSON body of `generate-user-stories` (pydantic field defaults of
`TextInput`) and the multipart form of `analyze-design` (the `Form`
parameter defaults). -/
theorem c10_option_defaults :
    ∀ text : Chars,
      (TextInput.mkDefault text).options = analyzeDesignFormDefaults ∧
      analyzeDesignFormDefaults = ⟨false, true, true, true⟩ :=
  fun _ => ⟨rfl, rfl⟩

/-- C1 (code behavior at the failing input): a whitespace-only `text`
makes no external completion call, but the response is HTTP 500, not the
claimed 400 — the `HTTPException(400)` of line 123 is raised inside the
`try` and re-wrapped by the catch-all `except Exception` of line 177. -/
theorem c1_empty_text_gives_500_and_no_call :
    (generate_user_stories (TextInput.mkDefault "   ".data) (.ok "unused".data)).attempts = [] ∧
    (generate_user_stories (TextInput.mkDefault "   ".data) (.ok "unused".data)).response =
      .error (500, "Internal server error: 400: Input text cannot be empty".data) :=
  ⟨rfl, rfl⟩

/-- C4 counterexample: `t = "[]"` is a valid structured-data document,
yet the extraction step does not return its parsed value — it fails
(there is no opening brace to find), so the claimed round trip without a
brace-delimited-object precondition is false. -/
theorem c4_counterexample :
    json_loads "[]".data = some (Json.arr []) ∧ extractJson "[]".data = none :=
  ⟨rfl, rfl⟩

/-- C4 (amended): round-trip identity holds for every valid document
that is brace-delimited — if `t` parses as structured data and begins
with an opening brace and ends with a closing brace, the extraction step
returns exactly the parsed value of `t`. -/
theorem c4_amended (t : Chars) (v : Json)
    (hparse : json_loads t = some v)
    (hfirst : t.head? = some '\x7b') (hlast : t.getLast? = some '\x7d') :
    extractJson t = some v := by
  obtain ⟨c, rest, rfl⟩ : ∃ c rest, t = c :: rest := by
    cases t with
    | nil => simp at hfirst
    | cons a l => exact ⟨a, l, rfl⟩
  have hc : c = '\x7b' := by simpa using hfirst
  subst hc
  have hfind : pyFindChar '\x7b' ('\x7b' :: rest) = some 0 := by
    unfold pyFindChar
    simp
  obtain ⟨rr, hrr⟩ : ∃ rr, ('\x7b' :: rest).reverse = '\x7d' :: rr := by
    have hrev : ('\x7b' :: rest).reverse.head? = some '\x7d' := by
      rw [List.head?_reverse]
      exact hlast
    cases hre : ('\x7b' :: rest).reverse with
    | nil => rw [hre] at hrev; simp at hrev
    | cons a l =>
      rw [hre] at hrev
      simp only [List.head?_cons, Option.some.injEq] at hrev
      exact ⟨l, by rw [hrev]⟩
  have hrfind : pyRFindChar '\x7d' ('\x7b' :: rest) =
      some (('\x7b' :: rest).length - 1) := by
    unfold pyRFindChar
    rw [hrr]
    unfold pyFindChar
    simp
  have hcand : extractCandidate ('\x7b' :: rest) = some ('\x7b' :: rest) := by
    unfold extractCandidate
    rw [hfind, hrfind]
    have hlen : ('\x7b' :: rest).length - 1 + 1 = ('\x7b' :: rest).length := by
      simp [List.length_cons]
    change some (pySlice ('\x7b' :: rest) 0 (('\x7b' :: rest).length - 1 + 1)) =
      some ('\x7b' :: rest)
    rw [hlen]
    unfold pySlice
    rw [List.take_length, List.drop_zero]
  unfold extractJson
  rw [hcand]
  simpa using hparse

/-- C4 amended, witness: the document from the spec example round-trips. -/
theorem c4_amended_witness :
    extractJson "\x7b\"user_stories\":[],\"edge_cases\":[]\x7d".data =
      some (Json.obj [("user_stories".data, Json.arr []), ("edge_cases".data, Json.arr [])]) :=
  c4_amended "\x7b\"user_stories\":[],\"edge_cases\":[]\x7d".data
    (Json.obj [("user_stories".data, Json.arr []), ("edge_cases".data, Json.arr [])])
    rfl rfl rfl

/-- C3 counterexample: at a concrete request whose only completion
attempt raises, the handler has issued exactly one request and that
request is not structured-mode, and the error surfaces as a 500 — there
is no structured-mode first attempt and no fallback retry, contrary to
the claim. -/
theorem c3_counterexample :
    (generate_user_stories sampleInput (.error (.openAIError "service rejected".data))).attempts.map
        CompletionRequest.structuredMode = [false] ∧
    statusOf (generate_user_stories sampleInput
        (.error (.openAIError "service rejected".data))).response = some 500 :=
  ⟨rfl, rfl⟩

/-- C3 (amended): the handler issues exactly one completion request —
unconstrained (no structured mode), model `gpt-4o`, temperature 0.7,
max_tokens 4000 — and on any error of that single attempt no retry is
made: the error propagates as a 500 response. -/
theorem c3_amended (input : TextInput) (svcResponse : Except PyErr Chars)
    (h : pyStrip input.text ≠ []) :
    (generate_user_stories input svcResponse).attempts = [generateRequest input] ∧
    (generateRequest input).structuredMode = false ∧
    (generateRequest input).model = "gpt-4o".data ∧
    (generateRequest input).temperatureTenths = 7 ∧
    (generateRequest input).maxTokens = 4000 ∧
    ∀ e, svcResponse = .error e →
      (generate_user_stories input svcResponse).response = .error (wrapErr e) := by
  unfold generate_user_stories
  rw [if_neg h]
  refine ⟨?_, rfl, rfl, rfl, rfl, ?_⟩
  · cases svcResponse with
    | error e => rfl
    | ok c =>
      simp only []
      split <;> rfl
  · intro e he
    subst he
    rfl

/-- C3 amended, witness at a concrete failing request. -/
theorem c3_amended_witness :
    (generate_user_stories sampleInput (.error (.valueError "timeout".data))).attempts =
      [generateRequest sampleInput] ∧
    (generateRequest sampleInput).structuredMode = false ∧
    (generateRequest sampleInput).model = "gpt-4o".data ∧
    (generateRequest sampleInput).temperatureTenths = 7 ∧
    (generateRequest sampleInput).maxTokens = 4000 ∧
    ∀ e, (.error (.valueError "timeout".data) : Except PyErr Chars) = .error e →
      (generate_user_stories sampleInput (.error (.valueError "timeout".data))).response =
        .error (wrapErr e) :=
  c3_amended sampleInput (.error (.valueError "timeout".data)) (by decide)

/-- C2 counterexample: for completion text `"{}"` extraction succeeds
(the empty object), the recovered object fails shape validation
(missing `user_stories` / `edge_cases`), and the handler surfaces a 500
error response instead of recovering into the degraded placeholder —
`GenerationResponse(**result)` sits outside the recovery `try`. -/
theorem c2_counterexample :
    extractJson "\x7b\x7d".data = some (Json.obj []) ∧
    statusOf (generate_user_stories sampleInput (.ok "\x7b\x7d".data)).response = some 500 :=
  ⟨rfl, rfl⟩

/-- C2 (amended): an extraction failure is locally recovered into the
degraded placeholder and answered 200; but a successfully extracted
object that fails shape validation escapes the recovery block and is
surfaced to the caller as a 500 error response. -/
theorem c2_amended (input : TextInput) (t : Chars) (h : pyStrip input.text ≠ []) :
    (extractJson t = none →
      (generate_user_stories input (.ok t)).response =
        .ok { user_stories := [{ title := "Generated User Story".data,
                                 story := truncStory t,
                                 acceptance_criteria := [reviewCriteria],
                                 metadata := none }],
              edge_cases := [reviewEdgeCases] }) ∧
    (∀ j, extractJson t = some j → buildGenerationResponse j = none →
      statusOf (generate_user_stories input (.ok t)).response = some 500) := by
  constructor
  · intro hex
    rw [generate_extract_failed input t h hex]
  · intro j hj hb
    unfold generate_user_stories
    rw [if_neg h]
    simp only [hj, hb]
    rfl

/-- C2 amended, witness: both branches at concrete completion texts. -/
theorem c2_amended_witness :
    (generate_user_stories sampleInput (.ok "no object here".data)).response =
      .ok { user_stories := [{ title := "Generated User Story".data,
                               story := "no object here".data,
                               acceptance_criteria := [reviewCriteria],
                               metadata := none }],
            edge_cases := [reviewEdgeCases] } ∧
    statusOf (generate_user_stories sampleInput (.ok "\x7b\"user_stories\": 3\x7d".data)).response =
      some 500 :=
  ⟨(c2_amended sampleInput "no object here".data (by decide)).1 rfl,
   (c2_amended sampleInput "\x7b\"user_stories\": 3\x7d".data (by decide)).2
     (Json.obj [("user_stories".data, Json.num 3)]) rfl rfl⟩

/-- C5: whenever no structured object is recoverable from the raw text
`t`, the degraded result has exactly one user story and exactly one edge
case, both carrying the fixed review-prompt strings, and the story field
is `t` truncated to 200 characters with "..." appended exactly when `t`
is longer than 200 characters. -/
theorem c5_degraded_placeholder (input : TextInput) (t : Chars)
    (h : pyStrip input.text ≠ []) (hex : extractJson t = none) :
    (generate_user_stories input (.ok t)).response =
      .ok { user_stories := [{ title := "Generated User Story".data,
                               story := truncStory t,
                               acceptance_criteria := [reviewCriteria],
                               metadata := none }],
            edge_cases := [reviewEdgeCases] } ∧
    (truncStory t = t.take 200 ++ "...".data ↔ 200 < t.length) ∧
    (t.length ≤ 200 → truncStory t = t) := by
  refine ⟨by rw [generate_extract_failed input t h hex], ?_, ?_⟩
  · constructor
    · intro heq
      by_contra hle
      push_neg at hle
      rw [truncStory, if_neg (by omega)] at heq
      have : t.take 200 = t := List.take_of_length_le hle
      rw [this] at heq
      have := congrArg List.length heq
      simp at this
    · intro hgt
      rw [truncStory, if_pos (by omega)]
  · intro hle
    rw [truncStory, if_neg (by omega)]

/-- C5 witness at the spec's example text. -/
theorem c5_witness :
    (generate_user_stories sampleInput (.ok "no object here".data)).response =
      .ok { user_stories := [{ title := "Generated User Story".data,
                               story := truncStory "no object here".data,
                               acceptance_criteria := [reviewCriteria],
                               metadata := none }],
            edge_cases := [reviewEdgeCases] } ∧
    (truncStory "no object here".data = "no object here".data.take 200 ++ "...".data ↔
      200 < "no object here".data.length) ∧
    ("no object here".data.length ≤ 200 → truncStory "no object here".data = "no object here".data) :=
  c5_degraded_placeholder sampleInput "no object here".data (by decide) rfl

/-- Every error the inner `try` of `regenerate_story` can produce is a
`JSONDecodeError` or a `ValueError` (pydantic `ValidationError`
included), hence caught by its recovery branch. -/
theorem regenInner_error_caught (content : Chars) (e : PyErr)
    (h : regenInner content = .error e) : caughtByJsonValue e = true := by
  unfold regenInner at h
  split at h
  · cases h
    rfl
  · split at h
    · cases h
      rfl
    · split at h
      · split at h
        · cases h
        · cases h
          rfl
      · cases h
        rfl

/-- C6: when the completion response of a regeneration request is not
parseable into a story (the inner `try` fails), the handler returns the
placeholder `UserStory`: metadata equal to the request's
`currentStory.metadata`, title equal to the original title prefixed with
"Improved: ", and exactly the three fixed generic acceptance criteria. -/
theorem c6_regen_placeholder (request : RegenerateRequest) (content : Chars) (e : PyErr)
    (h : pyStrip request.original_input ≠ []) (hfail : regenInner content = .error e) :
    regenerate_story request (.ok content) =
      .ok { title := "Improved: ".data ++ request.current_story.title
            story := request.current_story.story
            acceptance_criteria := regenPlaceholderCriteria
            metadata := request.current_story.metadata } := by
  unfold regenerate_story
  rw [if_neg h]
  simp only [hfail, regenInner_error_caught content e hfail]
  rfl

/-- C6 witness at a concrete unparseable completion response. -/
theorem c6_regen_placeholder_witness :
    regenerate_story sampleRegenRequest (.ok "no json in this reply".data) =
      .ok { title := "Improved: ".data ++ sampleRegenRequest.current_story.title
            story := sampleRegenRequest.current_story.story
            acceptance_criteria := regenPlaceholderCriteria
            metadata := sampleRegenRequest.current_story.metadata } :=
  c6_regen_placeholder sampleRegenRequest "no json in this reply".data
    (.valueError "No JSON found in response".data) (by decide) rfl

/-- C9: on the regenerate path, once a completion response exists the
handler always answers 200 with either the story parsed from the
recovered object or the fixed placeholder; malformed or shape-invalid
model content never yields a 5xx, because `UserStory(**result)` runs
inside the recovery `try` and its `ValidationError` is a `ValueError`. -/
theorem c9_regen_never_5xx (request : RegenerateRequest) (content : Chars)
    (h : pyStrip request.original_input ≠ []) :
    regenerate_story request (.ok content) =
      .ok (match regenInner content with
           | .ok s => s
           | .error _ => regenPlaceholder request) := by
  unfold regenerate_story
  rw [if_neg h]
  cases hi : regenInner content with
  | ok s => simp only [hi]
  | error e => simp only [hi, regenInner_error_caught content e hi]; rfl

/-- C9 witness at a concrete well-formed completion response. -/
theorem c9_regen_never_5xx_witness :
    regenerate_story sampleRegenRequest
        (.ok "Here you go: \x7b\"title\": \"Better\", \"story\": \"As a user...\", \"acceptance_criteria\": [\"Given, when, then\"]\x7d done".data) =
      .ok (match regenInner "Here you go: \x7b\"title\": \"Better\", \"story\": \"As a user...\", \"acceptance_criteria\": [\"Given, when, then\"]\x7d done".data with
           | .ok s => s
           | .error _ => regenPlaceholder sampleRegenRequest) :=
  c9_regen_never_5xx sampleRegenRequest _ (by decide)

/-- The size guard of `analyze_design`: an accepted content type with an
oversized body is rejected before any completion call — but as a 500,
the `HTTPException(400)` being re-wrapped by the catch-all handler. -/
theorem analyze_size_rejected (content_type : Option Chars) (fileContent : Chars)
    (b1 b2 b3 b4 : Bool) (p s : Except PyErr Chars)
    (hct : (ctypeFalsy content_type
        || !(pyStartsWith "image/".data (content_type.getD [])
            || pyStartsWith "application/pdf".data (content_type.getD []))) = false)
    (hlen : fileContent.length > tenMB) :
    analyze_design content_type fileContent b1 b2 b3 b4 p s =
      { response := .error (500,
          "Internal server error: 400: File size must be less than 10MB".data)
        attempts := [] } := by
  unfold analyze_design
  simp only [hct, Bool.false_eq_true, if_false, if_pos hlen]
  rfl

/-- C8 (code behavior at the failing inputs): an unsupported declared
content type, and an accepted type with a 15MB body against the 10MB
limit, are both rejected before any completion call — but with HTTP 500,
not the claimed 400: the `HTTPException(400)`s of lines 325 and 329 are
raised inside the `try` and re-wrapped by the catch-all
`except Exception` of line 427. -/
theorem c8_analyze_rejects_with_500 :
    ((analyze_design (some "text/plain".data) "x".data false true true true
        (.ok "t".data) (.ok "c".data)).attempts = [] ∧
      (analyze_design (some "text/plain".data) "x".data false true true true
        (.ok "t".data) (.ok "c".data)).response =
        .error (500,
          "Internal server error: 400: Only image files (PNG, JPG) and PDF files are supported".data)) ∧
    ((analyze_design (some "image/png".data) (List.replicate (15 * 1024 * 1024) 'a')
        false true true true (.ok "t".data) (.ok "c".data)).attempts = [] ∧
      (analyze_design (some "image/png".data) (List.replicate (15 * 1024 * 1024) 'a')
        false true true true (.ok "t".data) (.ok "c".data)).response =
        .error (500, "Internal server error: 400: File size must be less than 10MB".data)) := by
  have hbig := analyze_size_rejected (some "image/png".data)
    (List.replicate (15 * 1024 * 1024) 'a') false true true true
    (.ok "t".data) (.ok "c".data) (by decide)
    (by rw [List.length_replicate]; norm_num [tenMB])
  exact ⟨⟨rfl, rfl⟩, by rw [hbig], by rw [hbig]⟩

/-! ## Occurrence reasoning for the prompt-composition claim -/

/-- An occurrence of `m` in `x ++ y` lies in `x`, lies in `y`, or
straddles the boundary. -/
theorem infix_append_cases {α : Type} {m x y : List α} (h : m <:+: x ++ y) :
    m <:+: x ∨ m <:+: y ∨
      ∃ x1 m2, m = x1 ++ m2 ∧ x1 ≠ [] ∧ m2 ≠ [] ∧ x1 <:+ x ∧ m2 <+: y := by
  obtain ⟨s, t, hst⟩ := h
  rw [List.append_assoc] at hst
  rcases List.append_eq_append_iff.mp hst with ⟨a, hx, hmt⟩ | ⟨c, hs, hy⟩
  · rcases List.append_eq_append_iff.mp hmt with ⟨b, ha, ht⟩ | ⟨d, hm, hyd⟩
    · left
      exact ⟨s, b, by rw [hx, ha, List.append_assoc]⟩
    · by_cases hane : a = []
      · subst hane
        right; left
        simp only [List.nil_append] at hm
        exact ⟨[], t, by simp [hm, hyd]⟩
      · by_cases hdne : d = []
        · subst hdne
          left
          rw [List.append_nil] at hm
          exact ⟨s, [], by simp [hm, hx]⟩
        · right; right
          exact ⟨a, d, hm, hane, hdne, ⟨s, hx.symm⟩, ⟨t, hyd.symm⟩⟩
  · right; left
    exact ⟨c, t, by rw [hy, List.append_assoc]⟩

/-- If `m` occurs in neither `x` nor `y` and no character of `m` equals
the last character of `x`, then `m` does not occur in `x ++ y` (a
straddling occurrence would have to end a nonempty prefix of `m` at the
end of `x`). -/
theorem notInfix_append_chain {m x y : List Char}
    (hx : ¬ m <:+: x) (hy : ¬ m <:+: y)
    (hlast : ∀ c ∈ m, x.getLast? ≠ some c) :
    ¬ m <:+: x ++ y := by
  intro h
  rcases infix_append_cases h with h1 | h2 | ⟨x1, m2, hm, hx1, _, hsuf, _⟩
  · exact hx h1
  · exact hy h2
  · obtain ⟨s, hs⟩ := hsuf
    obtain ⟨c, hc⟩ : ∃ c, x1.getLast? = some c := by
      cases hgl : x1.getLast? with
      | none => exact absurd (List.getLast?_eq_none_iff.mp hgl) hx1
      | some c => exact ⟨c, rfl⟩
    have hmem : c ∈ m := by
      rw [hm]
      exact List.mem_append_left m2 (List.mem_of_getLast?_eq_some hc)
    have hxl : x.getLast? = some c := by
      rw [← hs, List.getLast?_append, hc]
      rfl
    exact hlast c hmem hxl

/-- The chain step for an optionally appended clause. -/
theorem notInfix_ite_append {m c y : List Char} {b : Bool}
    (hc : ¬ m <:+: c) (hlast : ∀ ch ∈ m, c.getLast? ≠ some ch) (hy : ¬ m <:+: y) :
    ¬ m <:+: (if b then c else []) ++ y := by
  cases b
  · simpa using hy
  · exact notInfix_append_chain hc hy hlast

/-- `if b then x ++ c else x = x ++ (if b then c else [])`. -/
theorem ite_append_eq {x c : Chars} {b : Bool} :
    (if b then x ++ c else x) = x ++ (if b then c else []) := by
  cases b <;> simp

set_option maxRecDepth 40000

/-- C7: for each of the four options toggled independently, the composed
prompt contains the corresponding enhancement clause iff that toggle is
true (provided the user text does not itself contain a clause marker),
the enabled clauses appear in the fixed order metadata → edge-cases →
advanced-criteria → comprehensive-scan after the base template, and the
user payload is appended last under the labeled section. -/
theorem c7_prompt_composition (input : TextInput)
    (hp1 : ¬ "IMPORTANT:".data <:+: input.text)
    (hp2 : ¬ "EDGE CASES:".data <:+: input.text)
    (hp3 : ¬ "ADVANCED CRITERIA:".data <:+: input.text)
    (hp4 : ¬ "COMPREHENSIVE ANALYSIS:".data <:+: input.text) :
    generatePrompt input =
      load_prompt ++ (if input.include_metadata then metadataClause else []) ++
        (if input.infer_edge_cases then edgeCasesClause else []) ++
        (if input.include_advanced_criteria then advancedCriteriaClause else []) ++
        (if input.expand_all_components then comprehensiveClause else []) ++
        unstructuredLabel ++ input.text ∧
    (metadataClause <:+: generatePrompt input ↔ input.include_metadata = true) ∧
    (edgeCasesClause <:+: generatePrompt input ↔ input.infer_edge_cases = true) ∧
    (advancedCriteriaClause <:+: generatePrompt input ↔ input.include_advanced_criteria = true) ∧
    (comprehensiveClause <:+: generatePrompt input ↔ input.expand_all_components = true) := by
  have hstruct : generatePrompt input =
      load_prompt ++ (if input.include_metadata then metadataClause else []) ++
        (if input.infer_edge_cases then edgeCasesClause else []) ++
        (if input.include_advanced_criteria then advancedCriteriaClause else []) ++
        (if input.expand_all_components then comprehensiveClause else []) ++
        unstructuredLabel ++ input.text := by
    unfold generatePrompt
    cases hb1 : input.include_metadata <;> cases hb2 : input.infer_edge_cases <;>
      cases hb3 : input.include_advanced_criteria <;> cases hb4 : input.expand_all_components <;>
      simp [List.append_assoc]
  refine ⟨hstruct, ?_, ?_, ?_, ?_⟩
  · constructor
    · intro hinf
      by_contra hne
      have htog : input.include_metadata = false := by
        cases hb : input.include_metadata
        · rfl
        · exact absurd hb hne
      have hP : generatePrompt input =
          load_prompt ++
            ((if input.infer_edge_cases then edgeCasesClause else []) ++
              ((if input.include_advanced_criteria then advancedCriteriaClause else []) ++
                ((if input.expand_all_components then comprehensiveClause else []) ++
                  (unstructuredLabel ++ input.text)))) := by
        rw [hstruct, htog]
        simp [List.append_assoc]
      have hM : "IMPORTANT:".data <:+: generatePrompt input :=
        List.IsInfix.trans (by decide) hinf
      rw [hP] at hM
      exact notInfix_append_chain (by decide)
        (notInfix_ite_append (by decide) (by decide)
          (notInfix_ite_append (by decide) (by decide)
            (notInfix_ite_append (by decide) (by decide)
              (notInfix_append_chain (by decide) hp1 (by decide)))))
        (by decide) hM
    · intro htog
      refine ⟨load_prompt,
        (if input.infer_edge_cases then edgeCasesClause else []) ++
          ((if input.include_advanced_criteria then advancedCriteriaClause else []) ++
            ((if input.expand_all_components then comprehensiveClause else []) ++
              (unstructuredLabel ++ input.text))), ?_⟩
      rw [hstruct, htog]
      simp [List.append_assoc]
  · constructor
    · intro hinf
      by_contra hne
      have htog : input.infer_edge_cases = false := by
        cases hb : input.infer_edge_cases
        · rfl
        · exact absurd hb hne
      have hP : generatePrompt input =
          load_prompt ++
            ((if input.include_metadata then metadataClause else []) ++
              ((if input.include_advanced_criteria then advancedCriteriaClause else []) ++
                ((if input.expand_all_components then comprehensiveClause else []) ++
                  (unstructuredLabel ++ input.text)))) := by
        rw [hstruct, htog]
        simp [List.append_assoc]
      have hM : "EDGE CASES:".data <:+: generatePrompt input :=
        List.IsInfix.trans (by decide) hinf
      rw [hP] at hM
      exact notInfix_append_chain (by decide)
        (notInfix_ite_append (by decide) (by decide)
          (notInfix_ite_append (by decide) (by decide)
            (notInfix_ite_append (by decide) (by decide)
              (notInfix_append_chain (by decide) hp2 (by decide)))))
        (by decide) hM
    · intro htog
      refine ⟨load_prompt ++ (if input.include_metadata then metadataClause else []),
        (if input.include_advanced_criteria then advancedCriteriaClause else []) ++
          ((if input.expand_all_components then comprehensiveClause else []) ++
            (unstructuredLabel ++ input.text)), ?_⟩
      rw [hstruct, htog]
      simp [List.append_assoc]
  · constructor
    · intro hinf
      by_contra hne
      have htog : input.include_advanced_criteria = false := by
        cases hb : input.include_advanced_criteria
        · rfl
        · exact absurd hb hne
      have hP : generatePrompt input =
          load_prompt ++
            ((if input.include_metadata then metadataClause else []) ++
              ((if input.infer_edge_cases then edgeCasesClause else []) ++
                ((if input.expand_all_components then comprehensiveClause else []) ++
                  (unstructuredLabel ++ input.text)))) := by
        rw [hstruct, htog]
        simp [List.append_assoc]
      have hM : "ADVANCED CRITERIA:".data <:+: generatePrompt input :=
        List.IsInfix.trans (by decide) hinf
      rw [hP] at hM
      exact notInfix_append_chain (by decide)
        (notInfix_ite_append (by decide) (by decide)
          (notInfix_ite_append (by decide) (by decide)
            (notInfix_ite_append (by decide) (by decide)
              (notInfix_append_chain (by decide) hp3 (by decide)))))
        (by decide) hM
    · intro htog
      refine ⟨load_prompt ++ (if input.include_metadata then metadataClause else []) ++
          (if input.infer_edge_cases then edgeCasesClause else []),
        (if input.expand_all_components then comprehensiveClause else []) ++
          (unstructuredLabel ++ input.text), ?_⟩
      rw [hstruct, htog]
      simp [List.append_assoc]
  · constructor
    · intro hinf
      by_contra hne
      have htog : input.expand_all_components = false := by
        cases hb : input.expand_all_components
        · rfl
        · exact absurd hb hne
      have hP : generatePrompt input =
          load_prompt ++
            ((if input.include_metadata then metadataClause else []) ++
              ((if input.infer_edge_cases then edgeCasesClause else []) ++
                ((if input.include_advanced_criteria then advancedCriteriaClause else []) ++
                  (unstructuredLabel ++ input.text)))) := by
        rw [hstruct, htog]
        simp [List.append_assoc]
      have hM : "COMPREHENSIVE ANALYSIS:".data <:+: generatePrompt input :=
        List.IsInfix.trans (by decide) hinf
      rw [hP] at hM
      exact notInfix_append_chain (by decide)
        (notInfix_ite_append (by decide) (by decide)
          (notInfix_ite_append (by decide) (by decide)
            (notInfix_ite_append (by decide) (by decide)
              (notInfix_append_chain (by decide) hp4 (by decide)))))
        (by decide) hM
    · intro htog
      refine ⟨load_prompt ++ (if input.include_metadata then metadataClause else []) ++
          (if input.infer_edge_cases then edgeCasesClause else []) ++
          (if input.include_advanced_criteria then advancedCriteriaClause else []),
        unstructuredLabel ++ input.text, ?_⟩
      rw [hstruct, htog]
      simp [List.append_assoc]

/-- C7 witness at a mixed concrete toggle assignment. -/
theorem c7_prompt_composition_witness :
    generatePrompt { text := "Some text".data, include_metadata := true,
                     infer_edge_cases := false, include_advanced_criteria := true,
                     expand_all_components := false } =
      load_prompt ++ metadataClause ++ [] ++ advancedCriteriaClause ++ [] ++
        unstructuredLabel ++ "Some text".data ∧
    (metadataClause <:+:
        generatePrompt { text := "Some text".data, include_metadata := true,
                         infer_edge_cases := false, include_advanced_criteria := true,
                         expand_all_components := false } ↔ true = true) ∧
    (edgeCasesClause <:+:
        generatePrompt { text := "Some text".data, include_metadata := true,
                         infer_edge_cases := false, include_advanced_criteria := true,
                         expand_all_components := false } ↔ false = true) ∧
    (advancedCriteriaClause <:+:
        generatePrompt { text := "Some text".data, include_metadata := true,
                         infer_edge_cases := false, include_advanced_criteria := true,
                         expand_all_components := false } ↔ true = true) ∧
    (comprehensiveClause <:+:
        generatePrompt { text := "Some text".data, include_metadata := true,
                         infer_edge_cases := false, include_advanced_criteria := true,
                         expand_all_components := false } ↔ false = true) :=
  c7_prompt_composition
    { text := "Some text".data, include_metadata := true, infer_edge_cases := false,
      include_advanced_criteria := true, expand_all_components := false }
    (by decide) (by decide) (by decide) (by decide)

end P2S
